import Mathlib

/-!
Shallow embedding of `src/has-wrapper.js` (hive-auth-wrapper).

The development models, directly from the source:
  * the pending request store `getRequest` (lines 42-52), including the
    JavaScript truthiness tests it performs (`uuid ?`, `!o.expire`);
  * the input validation (`assert` chains) of `authenticate` and `broadcast`;
  * the session-key selection and outbound payload construction of
    `authenticate` (lines 184-193);
  * one tick of the `setInterval` polling body of each of the three flows
    (`authenticate`, `broadcast`, `challenge`).

Modeling conventions:
  * machine time (`Date.now()`) is a `Nat` parameter `now`;
  * `CryptoJS.AES.encrypt(plain, key)` is the opaque constructor
    `Cipher.enc key plain`; decryption with the wrong key, of a missing
    field, or `JSON.parse` of a non-object plaintext is modeled as `none`
    (in the source these raise, which the flows either catch or let escape);
  * a promise settles with the first `resolve`/`reject` executed in a tick;
    the model records that first settlement together with whether
    `clearInterval` was executed during the tick.
-/

/-- JavaScript truthiness of a possibly-undefined string: `undefined` and the
empty string are falsy. -/
def jsTruthy : Option String → Bool
  | none => false
  | some s => s != ""

/-- JavaScript loose equality `==` restricted to two possibly-undefined
strings: `undefined == undefined` holds, `undefined == s` does not. -/
def jsEqOpt : Option String → Option String → Bool
  | none, none => true
  | some a, some b => a == b
  | _, _ => false

/-- JavaScript `a || b` on an optional string: yields the string when truthy,
otherwise the fallback. -/
def jsOr (o : Option String) (fallback : String) : String :=
  if jsTruthy o then o.getD "" else fallback

/-- App metadata (`app_data` argument of `authenticate`); absent fields are
`undefined`. -/
structure AppData where
  name : Option String := none
  description : Option String := none
  icon : Option String := none
deriving DecidableEq, Repr

/-- Challenge descriptor (`challenge_data` argument). -/
structure ChallengeData where
  key_type : Option String := none
  challenge : Option String := none
deriving DecidableEq, Repr

/-- Plaintexts the wrapper encrypts or decrypts: a plain string, or one of
the JSON objects it serializes (`auth_ack` payload, `auth_req` body,
`sign_req` body, `challenge_req` body). -/
inductive Plain where
  | str : String → Plain
  | authAckPayload : Option String → Option Nat → Plain
  | authReq : Option String → AppData → Option ChallengeData → Plain
  | broadcastReq : String → List String → Plain
  | challengeReq : ChallengeData → Plain
deriving DecidableEq, Repr

/-- Opaque AES ciphertext: `CryptoJS.AES.encrypt(plain, key)` is
`Cipher.enc key plain`. -/
inductive Cipher where
  | enc : String → Plain → Cipher
deriving DecidableEq, Repr

/-- Decryption of an optional ciphertext field under a key: the original
plaintext when the key matches, `none` (raise) otherwise or when the field is
absent. -/
def decryptPlain : Option Cipher → String → Option Plain
  | some (Cipher.enc k p), key => if k == key then some p else none
  | none, _ => none

/-- Model of `CryptoJS.AES.decrypt(c, key).toString(CryptoJS.enc.Utf8)`:
the plaintext string when the key matches and the plaintext is a string;
`none` models the raise on malformed input. -/
def decryptToStr (c : Option Cipher) (key : String) : Option String :=
  match decryptPlain c key with
  | some (Plain.str s) => some s
  | _ => none

/-- Model of `JSON.parse(CryptoJS.AES.decrypt(c, key).toString(Utf8))`:
succeeds exactly when the key matches and the plaintext is one of the JSON
object payloads (a bare string is not an object and fails to parse). -/
def decryptParse (c : Option Cipher) (key : String) : Option Plain :=
  match decryptPlain c key with
  | some (Plain.str _) => none
  | some p => some p
  | none => none

/-- Inbound protocol message as stored in the `requests` array. `key` is the
field `authenticate` adds to a `auth_wait` message before invoking `cbWait`. -/
structure Message where
  cmd : String
  uuid : Option String := none
  expire : Option Nat := none
  data : Option Cipher := none
  error : Option Cipher := none
  key : Option String := none
deriving DecidableEq, Repr

namespace CMD

def CONNECTED : String := "connected"

def AUTH_REQ : String := "auth_req"

def AUTH_WAIT : String := "auth_wait"

def AUTH_ACK : String := "auth_ack"

def AUTH_NACK : String := "auth_nack"

def AUTH_ERR : String := "auth_err"

def SIGN_REQ : String := "sign_req"

def SIGN_WAIT : String := "sign_wait"

def SIGN_ACK : String := "sign_ack"

def SIGN_NACK : String := "sign_nack"

def SIGN_ERR : String := "sign_err"

def CHALLENGE_REQ : String := "challenge_req"

def CHALLENGE_WAIT : String := "challenge_wait"

def CHALLENGE_ACK : String := "challenge_ack"

def CHALLENGE_NACK : String := "challenge_nack"

def CHALLENGE_ERR : String := "challenge_err"

end CMD

/-- Line 44: `!o.expire || o.expire >= Date.now()` — an entry is kept when its
`expire` is falsy (`undefined` or `0`) or has not passed. -/
def keep (now : Nat) (o : Message) : Bool :=
  match o.expire with
  | none => true
  | some e => e == 0 || decide (e ≥ now)

/-- Line 46 predicate: `o.cmd==type && (uuid ? o.uuid==uuid : true)`. -/
def matchQ (type : String) (uuid : Option String) (o : Message) : Bool :=
  o.cmd == type && (if jsTruthy uuid then jsEqOpt o.uuid uuid else true)

/-- Line 49 predicate: `o.cmd==type && (uuid ? o.uuid==req.uuid : true)` —
note the comparison against the found request's `uuid`. -/
def removeQ (type : String) (uuid : Option String) (req : Message) (o : Message) : Bool :=
  o.cmd == type && (if jsTruthy uuid then jsEqOpt o.uuid req.uuid else true)

/-- Lines 42-52, `getRequest(type, uuid)`: evict expired entries, find the
first match, and if found remove every entry matching the removal predicate.
Returns the found message (if any) and the new `requests` array. -/
def getRequest (now : Nat) (type : String) (uuid : Option String)
    (reqs : List Message) : Option Message × List Message :=
  let cleaned := reqs.filter (keep now)
  match cleaned.find? (matchQ type uuid) with
  | some req => (some req, cleaned.filter (fun o => !(removeQ type uuid req o)))
  | none => (none, cleaned)

/-- Helper: the found component of `getRequest` comes from the cleaned list. -/
theorem getRequest_fst_mem_clean {now : Nat} {t : String} {u : Option String}
    {reqs : List Message} {m : Message}
    (h : (getRequest now t u reqs).1 = some m) :
    m ∈ reqs.filter (keep now) := by
  simp only [getRequest] at h
  cases hf : (reqs.filter (keep now)).find? (matchQ t u) with
  | none => rw [hf] at h; simp at h
  | some req =>
      rw [hf] at h
      simp at h
      subst h
      exact List.mem_of_find?_eq_some hf

/-- Helper: truthiness of a present, nonempty string. -/
theorem jsTruthy_some {u : String} (hu : u ≠ "") : jsTruthy (some u) = true := by
  simp [jsTruthy, hu]

/-- Helper: loose equality against a present string holds exactly on equality. -/
theorem jsEqOpt_eq_true_iff {o : Option String} {u : String} :
    jsEqOpt o (some u) = true ↔ o = some u := by
  cases o <;> simp [jsEqOpt]

/-- Helper: `find?` skips a prefix on which the predicate fails everywhere. -/
theorem find?_eq_of_forall_head_false {α : Type} {p : α → Bool} {l1 l2 : List α}
    (h : ∀ a ∈ l1, p a = false) : (l1 ++ l2).find? p = l2.find? p := by
  induction l1 with
  | nil => rfl
  | cons x xs ih =>
      have hx : ¬ (p x = true) := by simp [h x (List.mem_cons_self x xs)]
      rw [List.cons_append, List.find?_cons_of_neg _ hx]
      exact ih fun a ha => h a (List.mem_cons_of_mem x ha)

def mExpireZero : Message := { cmd := CMD.AUTH_ACK, expire := some 0 }

/-- C3 (counterexample): at time 1 a query returns the stored `auth_ack`
whose `expire` is the already-elapsed instant 0 — because `!o.expire` treats
the value 0 as falsy, such an entry is never evicted and is returned. -/
theorem store_returns_zero_expire_entry :
    (getRequest 1 CMD.AUTH_ACK none [mExpireZero]).1 = some mExpireZero ∧
    mExpireZero.expire = some 0 ∧ 0 < 1 := by
  refine ⟨?_, rfl, one_pos⟩
  rfl

/-- C3 (amended): a query never returns an entry whose `expire` is a nonzero
instant lying strictly in the past; an `expire` of 0 is treated as absent
(falsy) and exempt from eviction. -/
theorem store_never_returns_expired_nonzero
    (now : Nat) (t : String) (u : Option String) (reqs : List Message)
    (m : Message) (h : (getRequest now t u reqs).1 = some m) :
    m.expire = none ∨ m.expire = some 0 ∨ ∃ e, m.expire = some e ∧ now ≤ e := by
  have hkeep : keep now m = true := List.of_mem_filter (getRequest_fst_mem_clean h)
  unfold keep at hkeep
  cases he : m.expire with
  | none => exact Or.inl rfl
  | some e =>
      rw [he] at hkeep
      simp only [Bool.or_eq_true, beq_iff_eq, decide_eq_true_eq, ge_iff_le] at hkeep
      cases hkeep with
      | inl h0 => exact Or.inr (Or.inl (by rw [h0]))
      | inr hle => exact Or.inr (Or.inr ⟨e, rfl, hle⟩)

def mFresh : Message := { cmd := CMD.AUTH_ACK, expire := some 5 }

/-- Witness for the amended C3 theorem at a concrete store and query time. -/
theorem store_never_returns_expired_nonzero_witness :
    mFresh.expire = none ∨ mFresh.expire = some 0 ∨
      ∃ e, mFresh.expire = some e ∧ 3 ≤ e :=
  store_never_returns_expired_nonzero 3 CMD.AUTH_ACK none [mFresh] mFresh (by rfl)

/-- C10: when the correlation id argument is omitted (falsy), a successful
query removes every remaining entry of the queried kind, whatever correlation
id each entry carries. -/
theorem store_query_without_uuid_removes_kind
    (now : Nat) (k : String) (reqs : List Message) (r : Message)
    (h : (getRequest now k none reqs).1 = some r) :
    ∀ o ∈ (getRequest now k none reqs).2, o.cmd ≠ k := by
  intro o ho
  simp only [getRequest] at h ho
  cases hf : (reqs.filter (keep now)).find? (matchQ k none) with
  | none => rw [hf] at h; simp at h
  | some req =>
      rw [hf] at ho
      have ho2 : o ∈ (reqs.filter (keep now)).filter
          (fun o => !(removeQ k none req o)) := ho
      have hno : (!(removeQ k none req o)) = true := (List.mem_filter.mp ho2).2
      intro hcmd
      simp [removeQ, jsTruthy, hcmd] at hno

def wU : String := "abc"

def wV : String := "xyz"

def wK : String := "topsecret"

def wAckA : Message := { cmd := CMD.SIGN_ACK, uuid := some wU }

def wAckB : Message := { cmd := CMD.SIGN_ACK, uuid := some wV }

/-- Witness for C10: a kind-only query on a store holding two entries with
different correlation ids removes even the entry whose correlation id
differs from the returned one. -/
theorem store_query_without_uuid_removes_kind_witness :
    wAckB ∉ (getRequest 0 CMD.SIGN_ACK none [wAckA, wAckB]).2 :=
  fun hmem =>
    store_query_without_uuid_removes_kind 0 CMD.SIGN_ACK [wAckA, wAckB] wAckA
      (by rfl) wAckB hmem rfl

/-- C4: appending two deliveries with the same (kind, correlation id) to a
store holding no other entry for that pair: one query returns the first of
them, both are removed, and an immediate second query for the pair finds
nothing. -/
theorem store_coalesces_duplicates
    (now : Nat) (k u : String) (reqs : List Message) (m1 m2 : Message)
    (hu : u ≠ "")
    (h1c : m1.cmd = k) (h1u : m1.uuid = some u) (h1k : keep now m1 = true)
    (h2c : m2.cmd = k) (h2u : m2.uuid = some u) (h2k : keep now m2 = true)
    (hprior : ∀ o ∈ reqs, ¬(o.cmd = k ∧ o.uuid = some u)) :
    (getRequest now k (some u) (reqs ++ [m1, m2])).1 = some m1 ∧
    m1 ∉ (getRequest now k (some u) (reqs ++ [m1, m2])).2 ∧
    m2 ∉ (getRequest now k (some u) (reqs ++ [m1, m2])).2 ∧
    (getRequest now k (some u)
      ((getRequest now k (some u) (reqs ++ [m1, m2])).2)).1 = none := by
  have htr : jsTruthy (some u) = true := jsTruthy_some hu
  have hq1 : matchQ k (some u) m1 = true := by
    simp [matchQ, htr, h1c, h1u, jsEqOpt]
  have hq2 : matchQ k (some u) m2 = true := by
    simp [matchQ, htr, h2c, h2u, jsEqOpt]
  have hqprior : ∀ a ∈ reqs.filter (keep now), matchQ k (some u) a = false := by
    intro a ha
    have hna := hprior a (List.mem_of_mem_filter ha)
    cases hqa : matchQ k (some u) a with
    | false => rfl
    | true =>
        exfalso
        apply hna
        unfold matchQ at hqa
        rw [htr] at hqa
        simp only [if_true, Bool.and_eq_true, beq_iff_eq] at hqa
        exact ⟨hqa.1, jsEqOpt_eq_true_iff.mp hqa.2⟩
  have hclean : (reqs ++ [m1, m2]).filter (keep now)
      = reqs.filter (keep now) ++ [m1, m2] := by
    rw [List.filter_append]
    simp [List.filter_cons, h1k, h2k]
  have hrem : (fun o => !(removeQ k (some u) m1 o))
      = (fun o => !(matchQ k (some u) o)) := by
    funext o
    simp [removeQ, matchQ, h1u]
  have hfst : (getRequest now k (some u) (reqs ++ [m1, m2])).1 = some m1 := by
    simp only [getRequest, hclean]
    rw [find?_eq_of_forall_head_false hqprior, List.find?_cons_of_pos _ hq1]
  have hstore : (getRequest now k (some u) (reqs ++ [m1, m2])).2
      = (reqs.filter (keep now)).filter (fun o => !(matchQ k (some u) o)) := by
    simp only [getRequest, hclean]
    rw [find?_eq_of_forall_head_false hqprior, List.find?_cons_of_pos _ hq1]
    dsimp only
    rw [hrem, List.filter_append]
    simp [List.filter_cons, hq1, hq2]
  have hm1 : m1 ∉ (getRequest now k (some u) (reqs ++ [m1, m2])).2 := by
    rw [hstore]
    intro hmem
    have hb := (List.mem_filter.mp hmem).2
    rw [hq1] at hb
    simp at hb
  have hm2 : m2 ∉ (getRequest now k (some u) (reqs ++ [m1, m2])).2 := by
    rw [hstore]
    intro hmem
    have hb := (List.mem_filter.mp hmem).2
    rw [hq2] at hb
    simp at hb
  have hsnd : (getRequest now k (some u)
      ((getRequest now k (some u) (reqs ++ [m1, m2])).2)).1 = none := by
    rw [hstore]
    have hnone : ∀ a ∈ (((reqs.filter (keep now)).filter
        (fun o => !(matchQ k (some u) o))).filter (keep now)),
        ¬ (matchQ k (some u) a = true) := by
      intro a ha
      have hb := (List.mem_filter.mp (List.mem_of_mem_filter ha)).2
      simp only [Bool.not_eq_true'] at hb
      simp [hb]
    simp only [getRequest]
    rw [List.find?_eq_none.mpr hnone]
  exact ⟨hfst, hm1, hm2, hsnd⟩

def wDup1 : Message := { cmd := CMD.SIGN_ACK, uuid := some wU }

def wDup2 : Message :=
  { cmd := CMD.SIGN_ACK, uuid := some wU, data := some (Cipher.enc wK (Plain.str wU)) }

/-- Witness for C4 at a concrete pair of duplicate deliveries. -/
theorem store_coalesces_duplicates_witness :
    (getRequest 0 CMD.SIGN_ACK (some wU) ([] ++ [wDup1, wDup2])).1 = some wDup1 ∧
    (getRequest 0 CMD.SIGN_ACK (some wU)
      ((getRequest 0 CMD.SIGN_ACK (some wU) ([] ++ [wDup1, wDup2])).2)).1 = none := by
  have h := store_coalesces_duplicates 0 CMD.SIGN_ACK wU [] wDup1 wDup2
    (by decide) rfl rfl (by decide) rfl rfl (by decide)
    (fun o ho => absurd ho (List.not_mem_nil o))
  exact ⟨h.1, h.2.2.2⟩

def msgMissingUsername : String := "missing or invalid auth.username"

def msgMissingAppName : String := "missing or invalid app_data.name"

def msgMissingChallengeKeyType : String := "missing or invalid challenge_data.key_type"

def msgMissingChallenge : String := "missing or invalid challenge_data.challenge"

def msgNotConnected : String := "not connected to server"

def msgMissingAuth : String := "missing auth"

def msgMissingUsername2 : String := "missing or invalid username"

def msgMissingToken : String := "missing or invalid token"

def msgMissingKey : String := "missing or invalid encryption key"

def msgMissingOps : String := "missing or invalid ops"

def msgExpired : String := "expired"

/-- Auth credential (the `Auth` class, lines 127-134); absent fields are
`undefined`. -/
structure AuthCred where
  username : Option String := none
  token : Option String := none
  expire : Option Nat := none
  key : Option String := none
deriving DecidableEq, Repr

/-- Model of node's `assert(cond, msg)`: an `AssertionError` carrying `msg`
stops execution when the condition is falsy. -/
def jsAssert (b : Bool) (msg : String) : Except String Unit :=
  if b then Except.ok () else Except.error msg

/-- Lines 178-182: the `assert` chain run by `authenticate` before anything
else. Each string-typed field is modeled as present-and-a-string or absent,
so `x && typeof(x)=="string"` is truthiness of the optional field. -/
def authenticateValidate (auth : Option AuthCred) (app_data : Option AppData)
    (challenge_data : Option ChallengeData) (connected : Bool) :
    Except String Unit := do
  jsAssert (jsTruthy (auth.bind (fun a => a.username))) msgMissingUsername
  jsAssert (jsTruthy (app_data.bind (fun a => a.name))) msgMissingAppName
  jsAssert (jsTruthy (challenge_data.bind (fun c => c.key_type))) msgMissingChallengeKeyType
  jsAssert (jsTruthy (challenge_data.bind (fun c => c.challenge))) msgMissingChallenge
  jsAssert connected msgNotConnected

def cAlice : String := "alice"

def cAppName : String := "myapp"

/-- C2 (code bug): calling `authenticate` with a valid credential and app
descriptor but the challenge descriptor omitted fails the line-180 assertion
— the `assert(challenge_data && challenge_data.key_type && ...)` chain
requires the descriptor that the signature default and the comment at lines
172-174 declare optional. -/
theorem authenticate_rejects_omitted_challenge :
    authenticateValidate (some { username := some cAlice })
      (some { name := some cAppName }) none true
      = Except.error msgMissingChallengeKeyType := by
  rfl

/-- Outbound wire message: the JSON object handed to `send`. -/
structure OutPayload where
  cmd : String
  account : Option String := none
  token : Option String := none
  data : Cipher
  auth_key : Option Cipher := none
deriving DecidableEq, Repr

/-- Lines 256-261: the `assert` chain run by `broadcast` before sending. -/
def broadcastValidate (auth : Option AuthCred) (ops : Option (List String))
    (connected : Bool) : Except String Unit := do
  jsAssert auth.isSome msgMissingAuth
  jsAssert (jsTruthy (auth.bind (fun a => a.username))) msgMissingUsername2
  jsAssert (jsTruthy (auth.bind (fun a => a.token))) msgMissingToken
  jsAssert (jsTruthy (auth.bind (fun a => a.key))) msgMissingKey
  jsAssert (ops.isSome && decide (0 < (ops.getD []).length)) msgMissingOps
  jsAssert connected msgNotConnected

/-- Lines 254-267 up to the `send`: validation, encryption of the ops under
`auth.key`, and construction of the `sign_req` payload. `.ok` is the payload
passed to `send`; `.error` is an assertion failure raised before any send. -/
def broadcastRequest (connected : Bool) (auth : Option AuthCred)
    (key_type : String) (ops : Option (List String)) : Except String OutPayload := do
  broadcastValidate auth ops connected
  let body := Plain.broadcastReq key_type (ops.getD [])
  let payload : OutPayload :=
    { cmd := CMD.SIGN_REQ, account := auth.bind (fun a => a.username),
      token := auth.bind (fun a => a.token),
      data := Cipher.enc ((auth.bind (fun a => a.key)).getD "") body }
  Except.ok payload

/-- Messages a `broadcast` call transmits up to and including its single
`send`: empty when an assertion failed first. -/
def broadcastSends (connected : Bool) (auth : Option AuthCred)
    (key_type : String) (ops : Option (List String)) : List OutPayload :=
  match broadcastRequest connected auth key_type ops with
  | Except.ok p => [p]
  | Except.error _ => []

/-- C7: a `broadcast` call with an empty operations array fails the `ops`
assertion — a validation error — and transmits nothing, whatever the
connection state and (otherwise valid) credential. -/
theorem broadcast_empty_ops_rejects_before_send
    (connected : Bool) (auth : AuthCred) (key_type : String)
    (hn : jsTruthy auth.username = true) (ht : jsTruthy auth.token = true)
    (hk : jsTruthy auth.key = true) :
    broadcastRequest connected (some auth) key_type (some []) = Except.error msgMissingOps ∧
    broadcastSends connected (some auth) key_type (some []) = [] := by
  have hv : broadcastValidate (some auth) (some ([] : List String)) connected
      = Except.error msgMissingOps := by
    simp only [broadcastValidate, jsAssert, Option.some_bind, hn, ht, hk]
    rfl
  refine ⟨?_, ?_⟩
  · simp only [broadcastRequest, hv]
    rfl
  · simp only [broadcastSends, broadcastRequest, hv]
    rfl

def wTok : String := "tok"

def wKeyType : String := "posting"

def wAuthFull : AuthCred := { username := some cAlice, token := some wTok, key := some wK }

/-- Witness for C7 at a concrete credential. -/
theorem broadcast_empty_ops_rejects_before_send_witness :
    broadcastRequest true (some wAuthFull) wKeyType (some []) = Except.error msgMissingOps ∧
    broadcastSends true (some wAuthFull) wKeyType (some []) = [] :=
  broadcast_empty_ops_rejects_before_send true wAuthFull wKeyType
    (by decide) (by decide) (by decide)

/-- Lines 184-193: session-key selection (`auth.key || uuidv4()`), encryption
of the request body under it, and the optional service-mode wrapping of the
key under `auth_key_secret`. `fresh` stands for the `uuidv4()` draw. Returns
the `auth_req` payload together with the derived `auth_key`. -/
def authRequestPayload (auth : AuthCred) (app_data : AppData)
    (challenge_data : Option ChallengeData) (fresh : String)
    (auth_key_secret : Option String) : OutPayload × String :=
  let auth_key := jsOr auth.key fresh
  ({ cmd := CMD.AUTH_REQ, account := auth.username, token := auth.token,
     data := Cipher.enc auth_key (Plain.authReq auth.token app_data challenge_data),
     auth_key := if jsTruthy auth_key_secret
       then some (Cipher.enc (auth_key_secret.getD "") (Plain.str auth_key))
       else none }, auth_key)

/-- C9: when the credential carries a (nonempty) session key, that key is
reused unchanged as the encryption key of the request; otherwise the fresh
random draw is used. The construction is a pure function of its arguments —
the model has no network or storage effects. -/
theorem session_key_reuse
    (auth : AuthCred) (app_data : AppData) (challenge_data : Option ChallengeData)
    (fresh : String) (sec : Option String) :
    (∀ k, auth.key = some k → k ≠ "" →
      (authRequestPayload auth app_data challenge_data fresh sec).2 = k ∧
      (authRequestPayload auth app_data challenge_data fresh sec).1.data
        = Cipher.enc k (Plain.authReq auth.token app_data challenge_data)) ∧
    (jsTruthy auth.key = false →
      (authRequestPayload auth app_data challenge_data fresh sec).2 = fresh ∧
      (authRequestPayload auth app_data challenge_data fresh sec).1.data
        = Cipher.enc fresh (Plain.authReq auth.token app_data challenge_data)) := by
  constructor
  · intro k hk hne
    have hor : jsOr auth.key fresh = k := by
      simp [jsOr, hk, jsTruthy, hne, Option.getD]
    constructor <;> simp [authRequestPayload, hor]
  · intro hf
    have hor : jsOr auth.key fresh = fresh := by
      simp [jsOr, hf]
    constructor <;> simp [authRequestPayload, hor]

def wFresh : String := "fresh-uuid"

def wAuthKeyed : AuthCred := { username := some cAlice, key := some wK }

def wAuthBare : AuthCred := { username := some cAlice }

/-- Witness for C9: one credential that carries a key and one that does not. -/
theorem session_key_reuse_witness :
    (authRequestPayload wAuthKeyed {} none wFresh none).2 = wK ∧
    (authRequestPayload wAuthBare {} none wFresh none).2 = wFresh :=
  ⟨((session_key_reuse wAuthKeyed {} none wFresh none).1 wK rfl (by decide)).1,
   ((session_key_reuse wAuthBare {} none wFresh none).2 (by decide)).1⟩

/-- Deadline test `expire <= Date.now()` (lines 241, 307, 382); an
`undefined` deadline — adopted from a wait message lacking `expire` — never
compares true in JavaScript. -/
def expired : Option Nat → Nat → Bool
  | some e, now => decide (e ≤ now)
  | none, _ => false

/-- State of one in-flight flow between polling ticks: the captured `uuid`
(falsy while the flow is still in the Sent phase), the current deadline, and
the shared `requests` store. -/
structure FlowState where
  uuid : Option String
  expire : Option Nat
  store : List Message
deriving DecidableEq, Repr

/-- First settlement of the flow's promise during a tick: `resolvedAck`
carries an ack message together with its decrypted-and-parsed payload,
`resolvedMsg` an ack resolved verbatim, `rejectedMsg` a nack or err message
passed to `reject`, `rejectedError` a `new Error(text)` rejection. -/
inductive Outcome where
  | resolvedAck : Message → Plain → Outcome
  | resolvedMsg : Message → Outcome
  | rejectedMsg : Message → Outcome
  | rejectedError : String → Outcome
deriving DecidableEq, Repr

/-- Result of one tick: the new flow state, the first settlement (if any),
whether `clearInterval` ran during the tick, and the message passed to
`cbWait` (if it was invoked). -/
structure TickResult where
  state : FlowState
  settle : Option Outcome
  cleared : Bool
  notified : Option Message
deriving DecidableEq, Repr

/-- Promise settlement is first-wins: a `reject(new Error("expired"))` after
an earlier settlement in the same tick is a no-op. -/
def someOrExpired : Option Outcome → Option Outcome
  | some s => some s
  | none => some (Outcome.rejectedError msgExpired)

/-- Shared tail of every tick (lines 240-244, 306-310, 381-385): check the
(possibly updated) deadline; on expiry stop the interval and reject with
"expired" unless the promise already settled earlier in the tick. -/
def finishTick (now : Nat) (st : FlowState) (settle : Option Outcome)
    (cleared : Bool) (notified : Option Message) : TickResult :=
  if expired st.expire now then
    { state := st, settle := someOrExpired settle, cleared := true, notified := notified }
  else
    { state := st, settle := settle, cleared := cleared, notified := notified }

/-- Lines 198-245: one execution of the `authenticate` flow's `setInterval`
body at time `now` with session key `auth_key`. The uncaught raise on line
231 when the nack payload fails to decrypt aborts the tick — the deadline
check is skipped and the interval keeps running — modeled by returning
without `finishTick`. -/
def authTick (auth_key : String) (now : Nat) (st : FlowState) : TickResult :=
  if jsTruthy st.uuid then
    let r1 := getRequest now CMD.AUTH_ACK st.uuid st.store
    let r2 := getRequest now CMD.AUTH_NACK st.uuid r1.2
    let r3 := getRequest now CMD.AUTH_ERR st.uuid r2.2
    let st2 : FlowState := { st with store := r3.2 }
    match r1.1 with
    | some a =>
        match decryptParse a.data auth_key with
        | some p => finishTick now st2 (some (Outcome.resolvedAck a p)) true none
        | none => finishTick now st2 none false none
    | none =>
        match r2.1 with
        | some nk =>
            match decryptToStr nk.data auth_key with
            | some s =>
                if jsEqOpt st.uuid (some s) then
                  finishTick now st2 (some (Outcome.rejectedMsg nk)) false none
                else
                  finishTick now st2 none false none
            | none => { state := st2, settle := none, cleared := false, notified := none }
        | none =>
            match r3.1 with
            | some e => finishTick now st2 (some (Outcome.rejectedMsg e)) false none
            | none => finishTick now st2 none false none
  else
    match getRequest now CMD.AUTH_WAIT none st.store with
    | (some req, store2) =>
        finishTick now { uuid := req.uuid, expire := req.expire, store := store2 }
          none false (some { req with key := some auth_key })
    | (none, store2) =>
        finishTick now { st with store := store2 } none false none

/-- Lines 271-311: one execution of the `broadcast` flow's interval body.
The error branch runs `clearInterval` before decrypting `req_err.error`
without a try/catch (lines 300-303); a decryption failure there raises after
the interval has been stopped, leaving the promise unsettled — modeled by a
result with `cleared := true` and no settlement and no deadline check. -/
def broadcastTick (key : String) (now : Nat) (st : FlowState) : TickResult :=
  if jsTruthy st.uuid then
    let r1 := getRequest now CMD.SIGN_ACK st.uuid st.store
    let r2 := getRequest now CMD.SIGN_NACK st.uuid r1.2
    let r3 := getRequest now CMD.SIGN_ERR st.uuid r2.2
    let st2 : FlowState := { st with store := r3.2 }
    match r1.1 with
    | some a => finishTick now st2 (some (Outcome.resolvedMsg a)) true none
    | none =>
        match r2.1 with
        | some nk => finishTick now st2 (some (Outcome.rejectedMsg nk)) true none
        | none =>
            match r3.1 with
            | some e =>
                match decryptToStr e.error key with
                | some s => finishTick now st2 (some (Outcome.rejectedError s)) true none
                | none => { state := st2, settle := none, cleared := true, notified := none }
            | none => finishTick now st2 none false none
  else
    match getRequest now CMD.SIGN_WAIT none st.store with
    | (some req, store2) =>
        finishTick now { uuid := req.uuid, expire := req.expire, store := store2 }
          none false (some req)
    | (none, store2) =>
        finishTick now { st with store := store2 } none false none

/-- Lines 339-386: one execution of the `challenge` flow's interval body.
Ack decryption failures are caught and ignored (lines 366-368); the error
branch shares the `broadcast` flow's uncaught decrypt after `clearInterval`. -/
def challengeTick (key : String) (now : Nat) (st : FlowState) : TickResult :=
  if jsTruthy st.uuid then
    let r1 := getRequest now CMD.CHALLENGE_ACK st.uuid st.store
    let r2 := getRequest now CMD.CHALLENGE_NACK st.uuid r1.2
    let r3 := getRequest now CMD.CHALLENGE_ERR st.uuid r2.2
    let st2 : FlowState := { st with store := r3.2 }
    match r1.1 with
    | some a =>
        match decryptParse a.data key with
        | some p => finishTick now st2 (some (Outcome.resolvedAck a p)) true none
        | none => finishTick now st2 none false none
    | none =>
        match r2.1 with
        | some nk => finishTick now st2 (some (Outcome.rejectedMsg nk)) true none
        | none =>
            match r3.1 with
            | some e =>
                match decryptToStr e.error key with
                | some s => finishTick now st2 (some (Outcome.rejectedError s)) true none
                | none => { state := st2, settle := none, cleared := true, notified := none }
            | none => finishTick now st2 none false none
  else
    match getRequest now CMD.CHALLENGE_WAIT none st.store with
    | (some req, store2) =>
        finishTick now { uuid := req.uuid, expire := req.expire, store := store2 }
          none false (some req)
    | (none, store2) =>
        finishTick now { st with store := store2 } none false none

/-- Helper: a query on the empty store finds nothing. -/
theorem getRequest_nil (now : Nat) (t : String) (u : Option String) :
    getRequest now t u [] = (none, []) := rfl

/-- Helper: loose equality is reflexive. -/
theorem jsEqOpt_refl (o : Option String) : jsEqOpt o o = true := by
  cases o <;> simp [jsEqOpt]

/-- Helper: a query on a singleton store whose entry is kept but does not
match returns nothing and keeps the entry. -/
theorem getRequest_singleton_miss {now : Nat} {t : String} {u : Option String}
    {m : Message} (hk : keep now m = true) (hm : matchQ t u m = false) :
    getRequest now t u [m] = (none, [m]) := by
  simp only [getRequest, List.filter_cons, hk, if_true, List.filter_nil]
  rw [List.find?_cons_of_neg _ (by simp [hm]), List.find?_nil]

/-- Helper: a query on a singleton store whose entry is kept and matches
returns the entry and empties the store. -/
theorem getRequest_singleton_hit {now : Nat} {t : String} {u : Option String}
    {m : Message} (hk : keep now m = true) (hm : matchQ t u m = true) :
    getRequest now t u [m] = (some m, []) := by
  have hcmd : (m.cmd == t) = true := by
    have h2 := hm
    unfold matchQ at h2
    simp only [Bool.and_eq_true] at h2
    exact h2.1
  have hrm : removeQ t u m m = true := by
    unfold removeQ
    rw [hcmd]
    cases hj : jsTruthy u <;> simp [jsEqOpt_refl]
  simp only [getRequest, List.filter_cons, hk, if_true, List.filter_nil]
  rw [List.find?_cons_of_pos _ hm]
  simp [hrm]

/-- C8: a Sent-phase tick (uuid still unset) that finds the flow's wait-kind
message records the message's `uuid` as the correlation id, replaces the
provisional deadline `d` with the message's own `expire`, hands the
confirmation message to `cbWait` (the authenticate flow first enriches it
with the session key), and leaves the flow in the Confirmed phase (a truthy
uuid), in all three flows. -/
theorem wait_match_confirms
    (key u : String) (now d e2 : Nat) (hu : u ≠ "") (hlt : now < e2) :
    authTick key now
        ⟨none, some d, [{ cmd := CMD.AUTH_WAIT, uuid := some u, expire := some e2 }]⟩
      = ⟨⟨some u, some e2, []⟩, none, false,
          some { cmd := CMD.AUTH_WAIT, uuid := some u, expire := some e2, key := some key }⟩ ∧
    broadcastTick key now
        ⟨none, some d, [{ cmd := CMD.SIGN_WAIT, uuid := some u, expire := some e2 }]⟩
      = ⟨⟨some u, some e2, []⟩, none, false,
          some { cmd := CMD.SIGN_WAIT, uuid := some u, expire := some e2 }⟩ ∧
    challengeTick key now
        ⟨none, some d, [{ cmd := CMD.CHALLENGE_WAIT, uuid := some u, expire := some e2 }]⟩
      = ⟨⟨some u, some e2, []⟩, none, false,
          some { cmd := CMD.CHALLENGE_WAIT, uuid := some u, expire := some e2 }⟩ ∧
    jsTruthy (some u) = true := by
  have hnex : expired (some e2) now = false := by
    simp only [expired, decide_eq_false_iff_not]
    omega
  have hkp : ∀ c : String,
      keep now ({ cmd := c, uuid := some u, expire := some e2 } : Message) = true := by
    intro c
    simp only [keep, Bool.or_eq_true, beq_iff_eq, decide_eq_true_eq, ge_iff_le]
    omega
  have hga : getRequest now CMD.AUTH_WAIT none
      [{ cmd := CMD.AUTH_WAIT, uuid := some u, expire := some e2 }]
      = (some { cmd := CMD.AUTH_WAIT, uuid := some u, expire := some e2 }, []) :=
    getRequest_singleton_hit (hkp CMD.AUTH_WAIT) (by simp [matchQ, jsTruthy])
  have hgb : getRequest now CMD.SIGN_WAIT none
      [{ cmd := CMD.SIGN_WAIT, uuid := some u, expire := some e2 }]
      = (some { cmd := CMD.SIGN_WAIT, uuid := some u, expire := some e2 }, []) :=
    getRequest_singleton_hit (hkp CMD.SIGN_WAIT) (by simp [matchQ, jsTruthy])
  have hgc : getRequest now CMD.CHALLENGE_WAIT none
      [{ cmd := CMD.CHALLENGE_WAIT, uuid := some u, expire := some e2 }]
      = (some { cmd := CMD.CHALLENGE_WAIT, uuid := some u, expire := some e2 }, []) :=
    getRequest_singleton_hit (hkp CMD.CHALLENGE_WAIT) (by simp [matchQ, jsTruthy])
  refine ⟨?_, ?_, ?_, jsTruthy_some hu⟩
  · simp [authTick, jsTruthy, hga, finishTick, hnex]
  · simp [broadcastTick, jsTruthy, hgb, finishTick, hnex]
  · simp [challengeTick, jsTruthy, hgc, finishTick, hnex]

/-- Witness for C8 at concrete values. -/
theorem wait_match_confirms_witness :
    (authTick wK 10
        ⟨none, some 60, [{ cmd := CMD.AUTH_WAIT, uuid := some wU, expire := some 99 }]⟩).state.uuid
      = some wU := by
  have h := wait_match_confirms wK wU 10 60 99 (by decide) (by decide)
  rw [h.1]

/-- C5: with the correlation id known and a nack for it in the store before
the deadline, the authenticate flow rejects with the nack exactly when
decrypting its payload under the session key reproduces the correlation id,
and otherwise discards it and keeps polling; the broadcast and challenge
flows reject with any nack matched on the correlation id, performing no
decryption check on its payload. -/
theorem nack_verification_asymmetry
    (key u : String) (now d : Nat) (c : Option Cipher)
    (hu : u ≠ "") (hnx : now < d) :
    (decryptToStr c key = some u →
      (authTick key now ⟨some u, some d,
          [{ cmd := CMD.AUTH_NACK, uuid := some u, data := c }]⟩).settle
        = some (Outcome.rejectedMsg { cmd := CMD.AUTH_NACK, uuid := some u, data := c })) ∧
    (decryptToStr c key ≠ some u →
      (authTick key now ⟨some u, some d,
          [{ cmd := CMD.AUTH_NACK, uuid := some u, data := c }]⟩).settle = none ∧
      (authTick key now ⟨some u, some d,
          [{ cmd := CMD.AUTH_NACK, uuid := some u, data := c }]⟩).cleared = false) ∧
    (broadcastTick key now ⟨some u, some d,
        [{ cmd := CMD.SIGN_NACK, uuid := some u, data := c }]⟩).settle
      = some (Outcome.rejectedMsg { cmd := CMD.SIGN_NACK, uuid := some u, data := c }) ∧
    (challengeTick key now ⟨some u, some d,
        [{ cmd := CMD.CHALLENGE_NACK, uuid := some u, data := c }]⟩).settle
      = some (Outcome.rejectedMsg { cmd := CMD.CHALLENGE_NACK, uuid := some u, data := c }) := by
  have htr : jsTruthy (some u) = true := jsTruthy_some hu
  have hnx2 : expired (some d) now = false := by
    simp only [expired, decide_eq_false_iff_not]
    omega
  have hga1 : getRequest now CMD.AUTH_ACK (some u)
      [{ cmd := CMD.AUTH_NACK, uuid := some u, data := c }]
      = (none, [{ cmd := CMD.AUTH_NACK, uuid := some u, data := c }]) :=
    getRequest_singleton_miss rfl
      (by simp [matchQ, show (CMD.AUTH_NACK == CMD.AUTH_ACK) = false from by decide])
  have hga2 : getRequest now CMD.AUTH_NACK (some u)
      [{ cmd := CMD.AUTH_NACK, uuid := some u, data := c }]
      = (some { cmd := CMD.AUTH_NACK, uuid := some u, data := c }, []) :=
    getRequest_singleton_hit rfl (by simp [matchQ, htr, jsEqOpt_refl])
  have hgb1 : getRequest now CMD.SIGN_ACK (some u)
      [{ cmd := CMD.SIGN_NACK, uuid := some u, data := c }]
      = (none, [{ cmd := CMD.SIGN_NACK, uuid := some u, data := c }]) :=
    getRequest_singleton_miss rfl
      (by simp [matchQ, show (CMD.SIGN_NACK == CMD.SIGN_ACK) = false from by decide])
  have hgb2 : getRequest now CMD.SIGN_NACK (some u)
      [{ cmd := CMD.SIGN_NACK, uuid := some u, data := c }]
      = (some { cmd := CMD.SIGN_NACK, uuid := some u, data := c }, []) :=
    getRequest_singleton_hit rfl (by simp [matchQ, htr, jsEqOpt_refl])
  have hgc1 : getRequest now CMD.CHALLENGE_ACK (some u)
      [{ cmd := CMD.CHALLENGE_NACK, uuid := some u, data := c }]
      = (none, [{ cmd := CMD.CHALLENGE_NACK, uuid := some u, data := c }]) :=
    getRequest_singleton_miss rfl
      (by simp [matchQ, show (CMD.CHALLENGE_NACK == CMD.CHALLENGE_ACK) = false from by decide])
  have hgc2 : getRequest now CMD.CHALLENGE_NACK (some u)
      [{ cmd := CMD.CHALLENGE_NACK, uuid := some u, data := c }]
      = (some { cmd := CMD.CHALLENGE_NACK, uuid := some u, data := c }, []) :=
    getRequest_singleton_hit rfl (by simp [matchQ, htr, jsEqOpt_refl])
  refine ⟨?_, ?_, ?_, ?_⟩
  · intro hdec
    simp [authTick, htr, hga1, hga2, getRequest_nil, hdec, jsEqOpt_refl,
      finishTick, hnx2]
  · intro hne
    cases hdec : decryptToStr c key with
    | none =>
        constructor <;> simp [authTick, htr, hga1, hga2, getRequest_nil, hdec]
    | some s =>
        have hsu : jsEqOpt (some u) (some s) = false := by
          simp only [jsEqOpt, beq_eq_false_iff_ne, ne_eq]
          intro h
          exact hne (hdec.trans (congrArg some h.symm))
        constructor <;>
          simp [authTick, htr, hga1, hga2, getRequest_nil, hdec, hsu,
            finishTick, hnx2]
  · simp [broadcastTick, htr, hgb1, hgb2, getRequest_nil, finishTick, hnx2]
  · simp [challengeTick, htr, hgc1, hgc2, getRequest_nil, finishTick, hnx2]

def wNackVerified : Message :=
  { cmd := CMD.AUTH_NACK, uuid := some wU, data := some (Cipher.enc wK (Plain.str wU)) }

/-- Witness for C5: a nack whose payload is the correlation id encrypted
under the session key is rejected by the authenticate flow. -/
theorem nack_verification_asymmetry_witness :
    (authTick wK 0 ⟨some wU, some 100, [wNackVerified]⟩).settle
      = some (Outcome.rejectedMsg wNackVerified) :=
  (nack_verification_asymmetry wK wU 0 100 (some (Cipher.enc wK (Plain.str wU)))
    (by decide) (by decide)).1 (by decide)

def wOther : String := "otherkey"

def wBoom : String := "boom"

def wErrBad : Message :=
  { cmd := CMD.SIGN_ERR, uuid := some wU, error := some (Cipher.enc wOther (Plain.str wBoom)) }

/-- C6 (counterexample): in the broadcast flow a matched `sign_err` whose
`error` field does not decrypt under the session key stops the interval —
the line-300 `clearInterval` precedes the unguarded decrypt of line 302 —
and the promise never settles: the decode failure is not recovered by
continued polling, contradicting the claim for this flow. -/
theorem broadcast_err_decode_failure_stops_polling :
    (broadcastTick wK 10 ⟨some wU, some 1000, [wErrBad]⟩).cleared = true ∧
    (broadcastTick wK 10 ⟨some wU, some 1000, [wErrBad]⟩).settle = none := by
  constructor <;> rfl

/-- C6 (amended): an ack whose payload fails to decrypt or parse under the
session key is discarded, polling continues and nothing reaches the caller,
in the authenticate and challenge flows (the broadcast flow never decrypts
its ack); but an err message whose error text fails to decrypt in the
broadcast or challenge flow stops the interval with the promise unsettled,
because `clearInterval` runs before the unguarded decrypt. -/
theorem decode_failure_handling
    (key u : String) (now d : Nat) (c : Option Cipher)
    (hu : u ≠ "") (hnx : now < d) (hbad : decryptParse c key = none) :
    authTick key now ⟨some u, some d,
        [{ cmd := CMD.AUTH_ACK, uuid := some u, data := c }]⟩
      = ⟨⟨some u, some d, []⟩, none, false, none⟩ ∧
    challengeTick key now ⟨some u, some d,
        [{ cmd := CMD.CHALLENGE_ACK, uuid := some u, data := c }]⟩
      = ⟨⟨some u, some d, []⟩, none, false, none⟩ ∧
    (∀ ec : Option Cipher, decryptToStr ec key = none →
      broadcastTick key now ⟨some u, some d,
          [{ cmd := CMD.SIGN_ERR, uuid := some u, error := ec }]⟩
        = ⟨⟨some u, some d, []⟩, none, true, none⟩ ∧
      challengeTick key now ⟨some u, some d,
          [{ cmd := CMD.CHALLENGE_ERR, uuid := some u, error := ec }]⟩
        = ⟨⟨some u, some d, []⟩, none, true, none⟩) := by
  have htr : jsTruthy (some u) = true := jsTruthy_some hu
  have hnx2 : expired (some d) now = false := by
    simp only [expired, decide_eq_false_iff_not]
    omega
  have hga : getRequest now CMD.AUTH_ACK (some u)
      [{ cmd := CMD.AUTH_ACK, uuid := some u, data := c }]
      = (some { cmd := CMD.AUTH_ACK, uuid := some u, data := c }, []) :=
    getRequest_singleton_hit rfl (by simp [matchQ, htr, jsEqOpt_refl])
  have hgc : getRequest now CMD.CHALLENGE_ACK (some u)
      [{ cmd := CMD.CHALLENGE_ACK, uuid := some u, data := c }]
      = (some { cmd := CMD.CHALLENGE_ACK, uuid := some u, data := c }, []) :=
    getRequest_singleton_hit rfl (by simp [matchQ, htr, jsEqOpt_refl])
  refine ⟨?_, ?_, ?_⟩
  · simp [authTick, htr, hga, getRequest_nil, hbad, finishTick, hnx2]
  · simp [challengeTick, htr, hgc, getRequest_nil, hbad, finishTick, hnx2]
  · intro ec hec
    have hgb1 : getRequest now CMD.SIGN_ACK (some u)
        [{ cmd := CMD.SIGN_ERR, uuid := some u, error := ec }]
        = (none, [{ cmd := CMD.SIGN_ERR, uuid := some u, error := ec }]) :=
      getRequest_singleton_miss rfl
        (by simp [matchQ, show (CMD.SIGN_ERR == CMD.SIGN_ACK) = false from by decide])
    have hgb2 : getRequest now CMD.SIGN_NACK (some u)
        [{ cmd := CMD.SIGN_ERR, uuid := some u, error := ec }]
        = (none, [{ cmd := CMD.SIGN_ERR, uuid := some u, error := ec }]) :=
      getRequest_singleton_miss rfl
        (by simp [matchQ, show (CMD.SIGN_ERR == CMD.SIGN_NACK) = false from by decide])
    have hgb3 : getRequest now CMD.SIGN_ERR (some u)
        [{ cmd := CMD.SIGN_ERR, uuid := some u, error := ec }]
        = (some { cmd := CMD.SIGN_ERR, uuid := some u, error := ec }, []) :=
      getRequest_singleton_hit rfl (by simp [matchQ, htr, jsEqOpt_refl])
    have hgc1 : getRequest now CMD.CHALLENGE_ACK (some u)
        [{ cmd := CMD.CHALLENGE_ERR, uuid := some u, error := ec }]
        = (none, [{ cmd := CMD.CHALLENGE_ERR, uuid := some u, error := ec }]) :=
      getRequest_singleton_miss rfl
        (by simp [matchQ, show (CMD.CHALLENGE_ERR == CMD.CHALLENGE_ACK) = false from by decide])
    have hgc2 : getRequest now CMD.CHALLENGE_NACK (some u)
        [{ cmd := CMD.CHALLENGE_ERR, uuid := some u, error := ec }]
        = (none, [{ cmd := CMD.CHALLENGE_ERR, uuid := some u, error := ec }]) :=
      getRequest_singleton_miss rfl
        (by simp [matchQ, show (CMD.CHALLENGE_ERR == CMD.CHALLENGE_NACK) = false from by decide])
    have hgc3 : getRequest now CMD.CHALLENGE_ERR (some u)
        [{ cmd := CMD.CHALLENGE_ERR, uuid := some u, error := ec }]
        = (some { cmd := CMD.CHALLENGE_ERR, uuid := some u, error := ec }, []) :=
      getRequest_singleton_hit rfl (by simp [matchQ, htr, jsEqOpt_refl])
    constructor
    · simp [broadcastTick, htr, hgb1, hgb2, hgb3, hec]
    · simp [challengeTick, htr, hgc1, hgc2, hgc3, hec]

def wAckBad : Message :=
  { cmd := CMD.AUTH_ACK, uuid := some wU, data := some (Cipher.enc wOther (Plain.str wBoom)) }

/-- Witness for the amended C6 theorem: an authenticate ack encrypted under a
foreign key is discarded and the flow keeps polling. -/
theorem decode_failure_handling_witness :
    authTick wK 0 ⟨some wU, some 9, [wAckBad]⟩ = ⟨⟨some wU, some 9, []⟩, none, false, none⟩ :=
  (decode_failure_handling wK wU 0 9 (some (Cipher.enc wOther (Plain.str wBoom)))
    (by decide) (by decide) (by decide)).1

def wAckLate : Message := { cmd := CMD.SIGN_ACK, uuid := some wU }

/-- C1 (counterexample): a broadcast tick at time 100 with the deadline 50
already passed and a matched terminal `sign_ack` in the store settles the
flow with the ack, not with the expiration outcome — the phase-specific
check runs before the deadline check and promise settlement is first-wins. -/
theorem late_match_beats_expiration_example :
    (broadcastTick wK 100 ⟨some wU, some 50, [wAckLate]⟩).settle
      = some (Outcome.resolvedMsg wAckLate) ∧
    expired (some 50) 100 = true ∧
    some (Outcome.resolvedMsg wAckLate) ≠ some (Outcome.rejectedError msgExpired) := by
  refine ⟨rfl, rfl, by decide⟩

/-- C1 (amended): the deadline check runs after the phase-specific check in
every tick and promise settlement is first-wins, so a terminal message
accepted during a tick settles the flow with its own outcome even when the
deadline has passed; the expiration outcome is produced exactly by ticks
whose phase-specific check accepts no message, in all three flows. -/
theorem expiration_only_without_match
    (key u : String) (now e : Nat) (hu : u ≠ "") (hle : e ≤ now) :
    (authTick key now ⟨some u, some e, []⟩).settle
      = some (Outcome.rejectedError msgExpired) ∧
    (broadcastTick key now ⟨some u, some e, []⟩).settle
      = some (Outcome.rejectedError msgExpired) ∧
    (challengeTick key now ⟨some u, some e, []⟩).settle
      = some (Outcome.rejectedError msgExpired) ∧
    (∀ a : Message, a.cmd = CMD.SIGN_ACK → a.uuid = some u → a.expire = none →
      (broadcastTick key now ⟨some u, some e, [a]⟩).settle
        = some (Outcome.resolvedMsg a)) := by
  have htr : jsTruthy (some u) = true := jsTruthy_some hu
  have hex : expired (some e) now = true := by
    simp only [expired, decide_eq_true_eq]
    omega
  refine ⟨?_, ?_, ?_, ?_⟩
  · simp [authTick, htr, getRequest_nil, finishTick, hex, someOrExpired]
  · simp [broadcastTick, htr, getRequest_nil, finishTick, hex, someOrExpired]
  · simp [challengeTick, htr, getRequest_nil, finishTick, hex, someOrExpired]
  · intro a hc hau hexp
    have hka : keep now a = true := by
      simp [keep, hexp]
    have hm : matchQ CMD.SIGN_ACK (some u) a = true := by
      simp [matchQ, hc, htr, hau, jsEqOpt_refl]
    have hg1 : getRequest now CMD.SIGN_ACK (some u) [a] = (some a, []) :=
      getRequest_singleton_hit hka hm
    simp [broadcastTick, htr, hg1, getRequest_nil, finishTick, hex, someOrExpired]

/-- Witness for the amended C1 theorem at concrete values. -/
theorem expiration_only_without_match_witness :
    (authTick wK 100 ⟨some wU, some 50, []⟩).settle
      = some (Outcome.rejectedError msgExpired) :=
  (expiration_only_without_match wK wU 100 50 (by decide) (by decide)).1
